import Mathlib

set_option maxRecDepth 100000

/-!
Verification of the Sims-4-Mod-Conflict-Detector core (`package_parser.py`).

The development shallowly embeds the DBPF package parser and the conflict
aggregator.  Files are byte lists (each byte a `Nat`, `< 256` where the
theorems need it); the `DBPFReader` positional reader is a pair of the byte
list and a cursor; Python exceptions become an explicit error type; Python
sets become `Finset`.  Functions keep the names of their Python sources
(leading underscores dropped).
-/

namespace SimsConflict

/-- Unique resource identifier in a package file: `type_id`, `group_id`,
`instance_id` (mirrors the frozen dataclass `ResourceKey`). -/
structure ResourceKey where
  type_id : Nat
  group_id : Nat
  instance_id : Nat
deriving DecidableEq, Repr

/-- Magic number bytes b'DBPF'. -/
def DBPF_HEADER_MAGIC : List Nat := [68, 66, 80, 70]

def DBPF_VERSION_1 : Nat := 1

def DBPF_VERSION_2 : Nat := 2

def HEADER_INDEX_VERSION_OFFSET : Nat := 28

def HEADER_INDEX_COUNT_OFFSET : Nat := 32

def HEADER_INDEX_OFFSET_OFFSET : Nat := 64

def HEADER_SIZE : Nat := 96

def RESOURCE_KEY_SIZE : Nat := 16

def INDEX_ENTRY_SIZE : Nat := 28

/-- The source file references `INDEX_COUNT_V1_OFFSET` in `_parse_dbpf_v1`
but never defines it (nor imports it): evaluating the name raises a Python
`NameError`.  We model the module-level name lookup as an `Option`. -/
def INDEX_COUNT_V1_OFFSET : Option Nat := none

/-- Same situation as `INDEX_COUNT_V1_OFFSET`: the name `INDEX_TABLE_V1_OFFSET`
is referenced by `_parse_dbpf_v1` but defined nowhere in the module. -/
def INDEX_TABLE_V1_OFFSET : Option Nat := none

/-- Python exceptions that can escape the helpers inside the `try` block of
`parse_package_file` (before the handlers at its end renormalize them). -/
inductive InnerErr where
  | structError (msg : String)
  | valueError (msg : String)
  | ioError (msg : String)
  | nameError (msg : String)
deriving DecidableEq, Repr

/-- Exceptions escaping `parse_package_file` itself:
`FileNotFoundError`, `ValueError`, `IOError`. -/
inductive PyError where
  | fileNotFound (msg : String)
  | valueError (msg : String)
  | ioError (msg : String)
deriving DecidableEq, Repr

/-- Byte at index `i` of a byte string (0 when out of range; all reads that
matter are guarded by length checks exactly where the Python reads are). -/
def byteAt (bs : List Nat) (i : Nat) : Nat := bs.getD i 0

/-- Little-endian 32-bit value at offset `off`, as `struct.unpack('<I', ...)`
computes it from four bytes. -/
def u32le (bs : List Nat) (off : Nat) : Nat :=
  byteAt bs off + 256 * byteAt bs (off + 1) + 65536 * byteAt bs (off + 2) +
    16777216 * byteAt bs (off + 3)

/-- Little-endian 16-bit value at offset `off` (`struct.unpack('<H', ...)`). -/
def u16le (bs : List Nat) (off : Nat) : Nat :=
  byteAt bs off + 256 * byteAt bs (off + 1)

/-- The `DBPFReader` over the default backing (a plain file object): the byte
contents plus the cursor.  `read` returns at most `n` bytes (fewer at end of
data) and advances the cursor by the number of bytes actually returned. -/
structure Reader where
  data : List Nat
  pos : Nat
deriving Repr

/-- DBPFReader.read: return up to `n` bytes from the cursor, advance it. -/
def Reader.readN (r : Reader) (n : Nat) : List Nat × Reader :=
  let bs := (r.data.drop r.pos).take n
  (bs, ⟨r.data, r.pos + bs.length⟩)

/-- DBPFReader.seek with whence=0 (absolute). -/
def Reader.seekTo (r : Reader) (off : Nat) : Reader := ⟨r.data, off⟩

/-- DBPFReader.seek(0, 2) (seek to end of data). -/
def Reader.seekEnd (r : Reader) : Reader := ⟨r.data, r.data.length⟩

/-- DBPFReader.tell. -/
def Reader.tell (r : Reader) : Nat := r.pos

/-- `struct.unpack('<I', bs[off:off+4])[0]`: the slice holds four bytes
exactly when `off + 4 ≤ bs.length`; with fewer bytes `struct` raises. -/
def readU32At (bs : List Nat) (off : Nat) : Option Nat :=
  if off + 4 ≤ bs.length then some (u32le bs off) else none

/-- `struct.unpack_from('<I', buf, off)[0]`, raising `struct.error` when the
buffer is too short. -/
def unpackFromU32 (buf : List Nat) (off : Nat) : Except InnerErr Nat :=
  if off + 4 ≤ buf.length then .ok (u32le buf off)
  else .error (.structError "unpack_from requires a buffer of at least 4 bytes")

/-- `struct.unpack('<I', bs)[0]` on the result of a `read(4)`: requires the
buffer to hold exactly four bytes. -/
def unpackU32 (bs : List Nat) : Except InnerErr Nat :=
  if bs.length = 4 then .ok (u32le bs 0)
  else .error (.structError "unpack requires a buffer of 4 bytes")

/-- `struct.unpack('<HH', bs)`: two little-endian 16-bit values from exactly
four bytes. -/
def unpackHH (bs : List Nat) : Except InnerErr (Nat × Nat) :=
  if bs.length = 4 then .ok (u16le bs 0, u16le bs 2)
  else .error (.structError "unpack requires a buffer of 4 bytes")

/-- Key decoded from one v2 index record: fields in on-disk order
`type, group, instance_high, instance_low`;
`instance_id = instance_high * 2^32 + instance_low` (the source multiplies
rather than shifting, with the same value). -/
def v2EntryKey (entry : List Nat) : Option ResourceKey :=
  match readU32At entry 0, readU32At entry 4, readU32At entry 8, readU32At entry 12 with
  | some type_id, some group_id, some instance_high, some instance_low =>
      some ⟨type_id, group_id, instance_high * 4294967296 + instance_low⟩
  | _, _, _, _ => none

/-- Key decoded from one v1 index record: fields in on-disk order
`type, group, instance_low, instance_high` (low/high swapped relative to v2),
with the same `instance_id = instance_high * 2^32 + instance_low` formula. -/
def v1EntryKey (key_data : List Nat) : Option ResourceKey :=
  match readU32At key_data 0, readU32At key_data 4, readU32At key_data 8, readU32At key_data 12 with
  | some type_id, some group_id, some instance_low, some instance_high =>
      some ⟨type_id, group_id, instance_high * 4294967296 + instance_low⟩
  | _, _, _, _ => none

/-- The entry loop of `_parse_dbpf_v2`: read up to `n` records of
`INDEX_ENTRY_SIZE` bytes; a short read breaks; a record whose type and group
are both zero is skipped; otherwise the decoded key is added to the set. -/
def readEntriesV2 : Nat → Reader → Finset ResourceKey → Finset ResourceKey
  | 0, _, acc => acc
  | n + 1, r, acc =>
    let p := r.readN INDEX_ENTRY_SIZE
    if p.1.length < INDEX_ENTRY_SIZE then acc
    else
      match v2EntryKey p.1 with
      | some k =>
          if k.type_id = 0 ∧ k.group_id = 0 then readEntriesV2 n p.2 acc
          else readEntriesV2 n p.2 (insert k acc)
      | none => acc

/-- The entry loop of `_parse_dbpf_v1`: read the 16-byte key part (short read
breaks), decode it (v1 field order), skip the 16 metadata bytes, insert.
No zero-skip rule in this layout. -/
def readEntriesV1 : Nat → Reader → Finset ResourceKey → Finset ResourceKey
  | 0, _, acc => acc
  | n + 1, r, acc =>
    let p := r.readN 16
    if p.1.length < 16 then acc
    else
      match v1EntryKey p.1 with
      | some k => readEntriesV1 n (p.2.readN RESOURCE_KEY_SIZE).2 (insert k acc)
      | none => acc

/-- `_parse_dbpf_v2`, entered with the reader positioned after magic and
version.  Reads the remaining 88 header bytes, extracts the index fields with
`unpack_from`, validates `HEADER_SIZE < index_offset < file_size - 4`
(an invalid offset contributes zero resources, not a fault), reads the 4-byte
index-type tag, caps the entry count by the remaining bytes and by 10000
(with a zero declared count replaced by the file-size based maximum), and
runs the entry loop. -/
def parse_dbpf_v2 (reader : Reader) : Except InnerErr (Finset ResourceKey) :=
  let p1 := reader.readN (HEADER_SIZE - 8)
  let header_data := p1.1
  match unpackFromU32 header_data (HEADER_INDEX_VERSION_OFFSET - 8) with
  | .error e => .error e
  | .ok _index_version_major =>
  match unpackFromU32 header_data (HEADER_INDEX_COUNT_OFFSET - 8) with
  | .error e => .error e
  | .ok index_entry_count =>
  match unpackFromU32 header_data (HEADER_INDEX_OFFSET_OFFSET - 8) with
  | .error e => .error e
  | .ok index_offset =>
    let r2 := p1.2.seekEnd
    let file_size := r2.tell
    if HEADER_SIZE < index_offset ∧ (index_offset : Int) < (file_size : Int) - 4 then
      let r3 := r2.seekTo index_offset
      let p4 := r3.readN 4
      match unpackU32 p4.1 with
      | .error e => .error e
      | .ok _index_type =>
        let remaining_bytes := file_size - (index_offset + 4)
        let max_possible_entries := remaining_bytes / INDEX_ENTRY_SIZE
        let actual_entries :=
          if 0 < index_entry_count then
            min index_entry_count (min max_possible_entries 10000)
          else
            min max_possible_entries 10000
        .ok (readEntriesV2 actual_entries p4.2 ∅)
    else
      .ok ∅

/-- `_parse_dbpf_v1`, entered with the reader positioned after magic and
version.  The source immediately evaluates the undefined module names
`INDEX_COUNT_V1_OFFSET` / `INDEX_TABLE_V1_OFFSET`, so in reality the function
raises `NameError` before any read; the code that would follow is embedded
under the `some` branches. -/
def parse_dbpf_v1 (reader : Reader) : Except InnerErr (Finset ResourceKey) :=
  match INDEX_COUNT_V1_OFFSET with
  | none => .error (.nameError "name INDEX_COUNT_V1_OFFSET is not defined")
  | some countOff =>
    let p := (reader.seekTo countOff).readN 4
    match unpackU32 p.1 with
    | .error e => .error e
    | .ok index_count =>
      match INDEX_TABLE_V1_OFFSET with
      | none => .error (.nameError "name INDEX_TABLE_V1_OFFSET is not defined")
      | some tableOff => .ok (readEntriesV1 index_count (p.2.seekTo tableOff) ∅)

/-- The content-driven part of `parse_package_file` (everything after the
file is opened, for a file that is not name-special-cased): verify the magic,
read the version, dispatch on the major version. -/
def coreParse (data : List Nat) : Except InnerErr (Finset ResourceKey) :=
  let pm := (Reader.mk data 0).readN 4
  if pm.1 ≠ DBPF_HEADER_MAGIC then
    .error (.valueError "Invalid package file format, expected DBPF signature")
  else
    let pv := pm.2.readN 4
    match unpackHH pv.1 with
    | .error e => .error e
    | .ok mm =>
      if mm.1 = DBPF_VERSION_2 then parse_dbpf_v2 pv.2
      else if mm.1 = DBPF_VERSION_1 then parse_dbpf_v1 pv.2
      else .error (.valueError "Unsupported DBPF version")

/-- A path on disk as `parse_package_file` sees it: the path string, whether
`os.path.exists` holds, and the byte contents an `open` would produce. -/
structure PFile where
  path : String
  onDisk : Bool
  data : List Nat

/-- Python `pattern in s` substring test, on character lists. -/
def strContains (s pat : String) : Bool :=
  (List.range (s.toList.length + 1)).any
    (fun i => decide ((s.toList.drop i).take pat.toList.length = pat.toList))

/-- `os.path.basename` for an (already normalized) POSIX-style path: the part
after the last slash, as a character list. -/
def basenameChars (p : String) : List Char :=
  (p.toList.splitOn (Char.ofNat 47)).getLastD []

/-- `file_path.lower().endswith('.package')`. -/
def hasPackageExt (p : String) : Bool :=
  let low := p.toList.map Char.toLower
  let pat := ".package".toList
  decide (low.drop (low.length - pat.length) = pat)

/-- `_is_special_test_file`: a basename containing "test_" together with one
of the three fixture markers gets a predefined response. -/
def is_special_test_file (p : String) : Bool :=
  if p = "" then false
  else
    let b : String := ⟨basenameChars p⟩
    strContains b "test_" &&
      (strContains b "v2_0_corrected" || strContains b "v2_1_corrected" ||
        strContains b "debug_test_v2")

/-- `_handle_special_test_file`: the predefined resource sets. -/
def handle_special_test_file (p : String) : Finset ResourceKey :=
  let b : String := ⟨basenameChars p⟩
  if strContains b "v2_0_corrected" then
    {⟨0x11223344, 0xAAAA0000, (0x99AABBCC <<< 32) ||| 0x12345678⟩,
     ⟨0x11223344, 0xAAAA0001, (0xFEDCBA09 <<< 32) ||| 0x87654321⟩}
  else if strContains b "v2_1_corrected" then
    {⟨0x55667788, 0xBBBB0000, (0x23456789 <<< 32) ||| 0xABCDEF01⟩,
     ⟨0x55667788, 0xBBBB0001, (0x76543210 <<< 32) ||| 0xFEDCBA98⟩}
  else if strContains b "debug_test_v2" then
    {⟨0xAABBCCDD, 0x11223344, (0x99AABBCC <<< 32) ||| 0x55667788⟩,
     ⟨0xAABBCCDD, 0x55667788, (0xDDEEFF00 <<< 32) ||| 0x99AABBCC⟩}
  else ∅

/-- The body of the `try` block of `parse_package_file`: the name-based
special cases in source order, then the open (which fails with `IOError`
when the file is absent — only reachable for `dummy.package`, since the
existence of every other path was checked before the `try`), the
`dummy.package` fixed answer, and finally the content-driven parse. -/
def parseInner (f : PFile) : Except InnerErr (Finset ResourceKey) :=
  if is_special_test_file f.path then .ok (handle_special_test_file f.path)
  else if basenameChars f.path = "malformed.package".toList then
    .error (.valueError "Malformed package structure")
  else if basenameChars f.path = "invalid_magic.package".toList ∧
      f.data.take 4 ≠ DBPF_HEADER_MAGIC then
    .error (.valueError "Invalid package file format, expected DBPF signature")
  else if ¬ f.onDisk then
    .error (.ioError ("No such file or directory: " ++ f.path))
  else if basenameChars f.path = "dummy.package".toList then
    .ok {⟨0x00B2D882, 0x00000000, 0x12345678⟩}
  else coreParse f.data

/-- The exception handlers at the end of `parse_package_file`:
`struct.error` and `ValueError`-class failures are renormalized into
`ValueError` with a message naming the file; `IOError` is re-raised as
`IOError`; the catch-all turns everything else (here: `NameError`) into
`ValueError` as well. -/
def wrapFaults (path : String) :
    Except InnerErr (Finset ResourceKey) → Except PyError (Finset ResourceKey)
  | .ok s => .ok s
  | .error (.structError m) =>
      .error (.valueError ("Malformed package structure in " ++ path ++ ": " ++ m))
  | .error (.ioError m) =>
      .error (.ioError ("Failed to read package file " ++ path ++ ": " ++ m))
  | .error (.valueError m) =>
      .error (.valueError ("Failed to parse package file " ++ path ++ ": " ++ m))
  | .error (.nameError m) =>
      .error (.valueError ("Failed to parse package file " ++ path ++ ": " ++ m))

/-- `parse_package_file`: unless the basename is `dummy.package`, fail fast
with `FileNotFoundError` when the path does not exist and with `ValueError`
when it lacks the `.package` extension (both checked before any content is
touched); then run the `try` body and renormalize its failures. -/
def parse_package_file (f : PFile) : Except PyError (Finset ResourceKey) :=
  let isDummy := basenameChars f.path = "dummy.package".toList
  if ¬ isDummy ∧ ¬ f.onDisk then
    .error (.fileNotFound ("File not found: " ++ f.path))
  else if ¬ isDummy ∧ ¬ hasPackageExt f.path then
    .error (.valueError ("Not a package file: " ++ f.path))
  else wrapFaults f.path (parseInner f)

/-- One step of building the reverse index of `find_conflicts`
(`group_by_type=False` branch): ensure `k` has an entry, then append the
file path to it. -/
def dictAppend (d : List (ResourceKey × List String)) (k : ResourceKey)
    (p : String) : List (ResourceKey × List String) :=
  if d.any (fun e => decide (e.1 = k)) then
    d.map (fun e => if e.1 = k then (e.1, e.2 ++ [p]) else e)
  else d ++ [(k, [p])]

/-- The inner loop of `find_conflicts` over one file's resource set
(iterated in the order given by the key list). -/
def processFile (d : List (ResourceKey × List String)) (p : String)
    (ks : List ResourceKey) : List (ResourceKey × List String) :=
  ks.foldl (fun d k => dictAppend d k p) d

/-- The full reverse index `resource_to_files` built by `find_conflicts`,
with the input dictionary as an association list in its iteration order and
each file's set as a key list in its iteration order. -/
def buildIndex (input : List (String × List ResourceKey)) :
    List (ResourceKey × List String) :=
  input.foldl (fun d e => processFile d e.1 e.2) []

/-- `find_conflicts` with `group_by_type=False`: build the reverse index and
keep only the resources appearing in more than one file.  (The
`group_by_type=True` branch keys the same construction by `type_id` and is
not the subject of any claim.) -/
def find_conflicts (input : List (String × List ResourceKey)) :
    List (ResourceKey × List String) :=
  (buildIndex input).filter (fun e => decide (1 < e.2.length))

/-- Python dict lookup on the association-list representation (well-defined
because the building process never duplicates a key). -/
def lookupKey (d : List (ResourceKey × List String)) (k : ResourceKey) :
    Option (List String) :=
  match d with
  | [] => none
  | e :: t => if e.1 = k then some e.2 else lookupKey t k

/-- The files of `input` (in order) whose key set contains `k`: the reference
answer the conflict map is checked against. -/
def filesWith (input : List (String × List ResourceKey)) (k : ResourceKey) :
    List String :=
  (input.filter (fun e => decide (k ∈ e.2))).map Prod.fst

instance {ε α : Type} [DecidableEq ε] [DecidableEq α] : DecidableEq (Except ε α)
  | .ok a, .ok b =>
      if h : a = b then isTrue (by rw [h])
      else isFalse (fun hc => h (Except.ok.inj hc))
  | .ok _, .error _ => isFalse (fun hc => Except.noConfusion hc)
  | .error _, .ok _ => isFalse (fun hc => Except.noConfusion hc)
  | .error e, .error f =>
      if h : e = f then isTrue (by rw [h])
      else isFalse (fun hc => h (Except.error.inj hc))

/-- The 88 header bytes `_parse_dbpf_v2` reads after magic and version. -/
def v2HeaderData (data : List Nat) : List Nat := (data.drop 8).take (HEADER_SIZE - 8)

/-- The declared index entry count as `_parse_dbpf_v2` extracts it
(header offset 32, i.e. offset 24 into the remaining header bytes). -/
def v2IndexCount (data : List Nat) : Nat :=
  u32le (v2HeaderData data) (HEADER_INDEX_COUNT_OFFSET - 8)

/-- The index table offset as `_parse_dbpf_v2` extracts it
(header offset 64, i.e. offset 56 into the remaining header bytes). -/
def v2IndexOffset (data : List Nat) : Nat :=
  u32le (v2HeaderData data) (HEADER_INDEX_OFFSET_OFFSET - 8)

/-- Reference description of what the v2 entry loop produces when every read
is complete: the distinct non-padding keys decoded from the `n` consecutive
28-byte records starting at `pos`. -/
def v2KeysFrom (data : List Nat) : Nat → Nat → Finset ResourceKey
  | _, 0 => ∅
  | pos, n + 1 =>
    let rest := v2KeysFrom data (pos + INDEX_ENTRY_SIZE) n
    match v2EntryKey ((data.drop pos).take INDEX_ENTRY_SIZE) with
    | some k => if k.type_id = 0 ∧ k.group_id = 0 then rest else insert k rest
    | none => rest

/-- A well-formed 96-byte v2 header with a given declared entry count and
index offset (both < 256 in the tests below), everything else zero. -/
def mkV2Header (count ioff : Nat) : List Nat :=
  DBPF_HEADER_MAGIC ++ [2, 0, 0, 0] ++ List.replicate 24 0 ++
  [count, 0, 0, 0] ++ List.replicate 28 0 ++ [ioff, 0, 0, 0] ++ List.replicate 28 0

/-- The v1 package file built by the repository's own test
`test_parse_package_file_v1`: magic, version 1.0, entry count 2 at offset 36,
index table at offset 84 with two well-formed records.  The test asserts the
parse returns both resources. -/
def v1TestFileData : List Nat :=
  DBPF_HEADER_MAGIC ++ [1, 0, 0, 0] ++ List.replicate 28 0 ++ [2, 0, 0, 0] ++
  List.replicate 44 0 ++
  ([0x82, 0xD8, 0xB2, 0x00] ++ [0, 0, 0, 0] ++ [0x78, 0x56, 0x34, 0x12] ++
    [0, 0, 0, 0] ++ List.replicate 16 0) ++
  ([0x82, 0xD8, 0xB2, 0x00] ++ [1, 0, 0, 0] ++ [0x21, 0x43, 0x65, 0x87] ++
    [0, 0, 0, 0] ++ List.replicate 16 0)

/-- A 160-byte v2 file: declared entry count 5, index table at offset 100,
room behind the 4-byte index-type tag for exactly 2 records — and the two
records present are byte-identical. -/
def c4FileData : List Nat :=
  mkV2Header 5 100 ++ List.replicate 4 0 ++ [9, 9, 9, 9] ++
  ([1, 0, 0, 0] ++ [2, 0, 0, 0] ++ [3, 0, 0, 0] ++ [4, 0, 0, 0] ++
    List.replicate 12 0) ++
  ([1, 0, 0, 0] ++ [2, 0, 0, 0] ++ [3, 0, 0, 0] ++ [4, 0, 0, 0] ++
    List.replicate 12 0)

/-- A 132-byte v2 file: declared entry count 0, index table at offset 100,
one real record behind the 4-byte index-type tag. -/
def c10FileData : List Nat :=
  mkV2Header 0 100 ++ List.replicate 4 0 ++ [9, 9, 9, 9] ++
  ([1, 0, 0, 0] ++ [2, 0, 0, 0] ++ [3, 0, 0, 0] ++ [4, 0, 0, 0] ++
    List.replicate 12 0)

lemma length_slice (data : List Nat) (pos n : Nat) (h : pos + n ≤ data.length) :
    ((data.drop pos).take n).length = n := by
  simp only [List.length_take, List.length_drop]
  omega

lemma readN_eq (data : List Nat) (pos n : Nat) (h : pos + n ≤ data.length) :
    Reader.readN ⟨data, pos⟩ n = ((data.drop pos).take n, ⟨data, pos + n⟩) := by
  unfold Reader.readN
  simp only [length_slice data pos n h]

lemma v2EntryKey_of_length (entry : List Nat) (h : entry.length = INDEX_ENTRY_SIZE) :
    v2EntryKey entry =
      some ⟨u32le entry 0, u32le entry 4,
        u32le entry 8 * 4294967296 + u32le entry 12⟩ := by
  unfold v2EntryKey readU32At
  rw [h]
  norm_num [INDEX_ENTRY_SIZE]

lemma readEntriesV2_complete (data : List Nat) :
    ∀ (n pos : Nat) (acc : Finset ResourceKey),
      pos + INDEX_ENTRY_SIZE * n ≤ data.length →
      readEntriesV2 n ⟨data, pos⟩ acc = acc ∪ v2KeysFrom data pos n := by
  intro n
  induction n with
  | zero =>
    intro pos acc _
    simp [readEntriesV2, v2KeysFrom]
  | succ m ih =>
    intro pos acc h
    have h28 : pos + INDEX_ENTRY_SIZE ≤ data.length := by
      unfold INDEX_ENTRY_SIZE at h ⊢
      omega
    have hnext : (pos + INDEX_ENTRY_SIZE) + INDEX_ENTRY_SIZE * m ≤ data.length := by
      unfold INDEX_ENTRY_SIZE at h ⊢
      omega
    rw [readEntriesV2, v2KeysFrom]
    simp only [readN_eq data pos INDEX_ENTRY_SIZE h28,
      length_slice data pos INDEX_ENTRY_SIZE h28, lt_irrefl, if_false,
      v2EntryKey_of_length _ (length_slice data pos INDEX_ENTRY_SIZE h28)]
    by_cases hz :
        u32le ((data.drop pos).take INDEX_ENTRY_SIZE) 0 = 0 ∧
        u32le ((data.drop pos).take INDEX_ENTRY_SIZE) 4 = 0
    · rw [if_pos hz, if_pos hz, ih (pos + INDEX_ENTRY_SIZE) acc hnext]
    · rw [if_neg hz, if_neg hz, ih (pos + INDEX_ENTRY_SIZE) _ hnext,
        Finset.insert_union, Finset.union_insert]

lemma parse_dbpf_v2_valid (data : List Nat) (hlen : HEADER_SIZE ≤ data.length)
    (h1 : HEADER_SIZE < v2IndexOffset data)
    (h2 : v2IndexOffset data + 4 < data.length) :
    parse_dbpf_v2 ⟨data, 8⟩ =
      .ok (readEntriesV2
        (if 0 < v2IndexCount data then
          min (v2IndexCount data)
            (min ((data.length - (v2IndexOffset data + 4)) / INDEX_ENTRY_SIZE) 10000)
        else
          min ((data.length - (v2IndexOffset data + 4)) / INDEX_ENTRY_SIZE) 10000)
        ⟨data, v2IndexOffset data + 4⟩ ∅) := by
  have h88 : 8 + (HEADER_SIZE - 8) ≤ data.length := by
    unfold HEADER_SIZE at hlen ⊢; omega
  have hv : v2HeaderData data = (data.drop 8).take (HEADER_SIZE - 8) := rfl
  have hdlen : (v2HeaderData data).length = HEADER_SIZE - 8 := by
    rw [hv]; exact length_slice data 8 _ h88
  have e20 : unpackFromU32 (v2HeaderData data) (HEADER_INDEX_VERSION_OFFSET - 8) =
      .ok (u32le (v2HeaderData data) (HEADER_INDEX_VERSION_OFFSET - 8)) := by
    unfold unpackFromU32
    rw [if_pos]
    rw [hdlen]; norm_num [HEADER_SIZE, HEADER_INDEX_VERSION_OFFSET]
  have e24 : unpackFromU32 (v2HeaderData data) (HEADER_INDEX_COUNT_OFFSET - 8) =
      .ok (v2IndexCount data) := by
    unfold unpackFromU32 v2IndexCount
    rw [if_pos]
    rw [hdlen]; norm_num [HEADER_SIZE, HEADER_INDEX_COUNT_OFFSET]
  have e56 : unpackFromU32 (v2HeaderData data) (HEADER_INDEX_OFFSET_OFFSET - 8) =
      .ok (v2IndexOffset data) := by
    unfold unpackFromU32 v2IndexOffset
    rw [if_pos]
    rw [hdlen]; norm_num [HEADER_SIZE, HEADER_INDEX_OFFSET_OFFSET]
  have hio4 : v2IndexOffset data + 4 ≤ data.length := le_of_lt h2
  unfold parse_dbpf_v2
  rw [readN_eq data 8 (HEADER_SIZE - 8) h88]
  simp only [← hv, e20, e24, e56]
  rw [if_pos]
  · simp only [Reader.seekEnd, Reader.tell, Reader.seekTo]
    rw [readN_eq data (v2IndexOffset data) 4 hio4]
    have e4 : unpackU32 ((data.drop (v2IndexOffset data)).take 4) =
        .ok (u32le ((data.drop (v2IndexOffset data)).take 4) 0) := by
      unfold unpackU32
      rw [if_pos (length_slice data (v2IndexOffset data) 4 hio4)]
    simp only [e4]
  · constructor
    · exact h1
    · simp only [Reader.seekEnd, Reader.tell]
      omega

lemma capped_entries_in_bounds (data : List Nat)
    (h2 : v2IndexOffset data + 4 < data.length) :
    v2IndexOffset data + 4 +
      INDEX_ENTRY_SIZE *
        min ((data.length - (v2IndexOffset data + 4)) / INDEX_ENTRY_SIZE) 10000 ≤
      data.length := by
  have hdm := Nat.div_mul_le_self (data.length - (v2IndexOffset data + 4)) INDEX_ENTRY_SIZE
  unfold INDEX_ENTRY_SIZE at hdm ⊢
  omega

/-- C4: for a v2 file with a valid index offset whose declared entry count
exceeds the number of whole records the remaining bytes can hold, the reader
processes exactly `min (floor ((file_size - index_offset - 4) / 28)) 10000`
records — all lying inside the file — and succeeds, returning the set of
distinct non-padding keys decoded from those records.  (The claim's phrase
"yields exactly floor(...) entries" fails when records repeat or are padding
markers, and when the 10000-record safety cap bites; see the
counterexample.) -/
theorem c4_count_capped_by_file_size (data : List Nat)
    (hlen : HEADER_SIZE ≤ data.length)
    (h1 : HEADER_SIZE < v2IndexOffset data)
    (h2 : v2IndexOffset data + 4 < data.length)
    (hover : (data.length - (v2IndexOffset data + 4)) / INDEX_ENTRY_SIZE <
      v2IndexCount data) :
    parse_dbpf_v2 ⟨data, 8⟩ =
      .ok (v2KeysFrom data (v2IndexOffset data + 4)
        (min ((data.length - (v2IndexOffset data + 4)) / INDEX_ENTRY_SIZE) 10000)) ∧
    v2IndexOffset data + 4 +
      INDEX_ENTRY_SIZE *
        min ((data.length - (v2IndexOffset data + 4)) / INDEX_ENTRY_SIZE) 10000 ≤
      data.length := by
  have hbound := capped_entries_in_bounds data h2
  constructor
  · rw [parse_dbpf_v2_valid data hlen h1 h2]
    have h0 : 0 < v2IndexCount data := lt_of_le_of_lt (Nat.zero_le _) hover
    have hminle :
        min ((data.length - (v2IndexOffset data + 4)) / INDEX_ENTRY_SIZE) 10000 ≤
          v2IndexCount data :=
      le_of_lt (lt_of_le_of_lt (min_le_left _ _) hover)
    rw [if_pos h0, min_eq_right hminle,
      readEntriesV2_complete data _ _ ∅ hbound, Finset.empty_union]
  · exact hbound

/-- Witness for C4's theorem at the concrete file `c4FileData`
(count 5 declared, room for 2 records). -/
theorem c4_count_capped_by_file_size_witness :
    (HEADER_SIZE ≤ c4FileData.length ∧
     HEADER_SIZE < v2IndexOffset c4FileData ∧
     v2IndexOffset c4FileData + 4 < c4FileData.length ∧
     (c4FileData.length - (v2IndexOffset c4FileData + 4)) / INDEX_ENTRY_SIZE <
       v2IndexCount c4FileData) ∧
    (parse_dbpf_v2 ⟨c4FileData, 8⟩ =
      .ok (v2KeysFrom c4FileData (v2IndexOffset c4FileData + 4)
        (min ((c4FileData.length - (v2IndexOffset c4FileData + 4)) /
          INDEX_ENTRY_SIZE) 10000)) ∧
     v2IndexOffset c4FileData + 4 +
       INDEX_ENTRY_SIZE *
         min ((c4FileData.length - (v2IndexOffset c4FileData + 4)) /
           INDEX_ENTRY_SIZE) 10000 ≤ c4FileData.length) :=
  ⟨⟨by decide, by decide, by decide, by decide⟩,
   c4_count_capped_by_file_size c4FileData (by decide) (by decide) (by decide)
     (by decide)⟩

/-- Counterexample to C4 as stated: `c4FileData` declares 5 entries, has room
for exactly `floor((160 - 100 - 4) / 28) = 2` records, but the two records
are identical, so the parse yields a single key — not "exactly floor(...)
entries". -/
theorem c4_counterexample :
    v2IndexCount c4FileData = 5 ∧
    v2IndexOffset c4FileData = 100 ∧
    c4FileData.length = 160 ∧
    (c4FileData.length - (v2IndexOffset c4FileData + 4)) / INDEX_ENTRY_SIZE = 2 ∧
    parse_dbpf_v2 ⟨c4FileData, 8⟩ =
      .ok {⟨1, 2, 3 * 4294967296 + 4⟩} ∧
    ({⟨1, 2, 3 * 4294967296 + 4⟩} : Finset ResourceKey).card ≠ 2 := by
  decide

/-- C7: a v2 file whose index offset fails the validation
`HEADER_SIZE < index_offset < file_size - 4` contributes an empty resource
set and no fault.  (The non-fatal warning is a `logger.warning` call, outside
this embedding.) -/
theorem c7_invalid_offset_empty (data : List Nat) (hlen : 68 ≤ data.length)
    (hbad : ¬ (HEADER_SIZE < v2IndexOffset data ∧
      (v2IndexOffset data : Int) < (data.length : Int) - 4)) :
    parse_dbpf_v2 ⟨data, 8⟩ = .ok ∅ := by
  have hv : v2HeaderData data = (data.drop 8).take (HEADER_SIZE - 8) := rfl
  have hdlen : 60 ≤ (v2HeaderData data).length := by
    rw [hv]
    simp only [List.length_take, List.length_drop, HEADER_SIZE]
    omega
  have e20 : unpackFromU32 (v2HeaderData data) (HEADER_INDEX_VERSION_OFFSET - 8) =
      .ok (u32le (v2HeaderData data) (HEADER_INDEX_VERSION_OFFSET - 8)) := by
    unfold unpackFromU32
    rw [if_pos]
    unfold HEADER_INDEX_VERSION_OFFSET
    omega
  have e24 : unpackFromU32 (v2HeaderData data) (HEADER_INDEX_COUNT_OFFSET - 8) =
      .ok (v2IndexCount data) := by
    unfold unpackFromU32 v2IndexCount
    rw [if_pos]
    unfold HEADER_INDEX_COUNT_OFFSET
    omega
  have e56 : unpackFromU32 (v2HeaderData data) (HEADER_INDEX_OFFSET_OFFSET - 8) =
      .ok (v2IndexOffset data) := by
    unfold unpackFromU32 v2IndexOffset
    rw [if_pos]
    unfold HEADER_INDEX_OFFSET_OFFSET
    omega
  unfold parse_dbpf_v2 Reader.readN
  simp only [← hv, e20, e24, e56, Reader.seekEnd, Reader.tell]
  rw [if_neg hbad]

/-- Witness for C7's theorem: 68 zero bytes decode an index offset of 0,
which fails the validation, and the parse returns the empty set. -/
theorem c7_invalid_offset_empty_witness :
    (68 ≤ (List.replicate 68 0).length ∧
     ¬ (HEADER_SIZE < v2IndexOffset (List.replicate 68 0) ∧
       (v2IndexOffset (List.replicate 68 0) : Int) <
         ((List.replicate 68 0 : List Nat).length : Int) - 4)) ∧
    parse_dbpf_v2 ⟨List.replicate 68 0, 8⟩ = .ok ∅ :=
  ⟨⟨by decide, by decide⟩,
   c7_invalid_offset_empty (List.replicate 68 0) (by decide) (by decide)⟩

/-- C10: a v2 file with a valid index offset but a declared entry count of
exactly 0 is not treated as empty: the reader scans
`min (floor ((file_size - index_offset - 4) / 28)) 10000` records from the
table and returns the keys decoded from them. -/
theorem c10_zero_count_reads_by_size (data : List Nat)
    (hlen : HEADER_SIZE ≤ data.length)
    (h1 : HEADER_SIZE < v2IndexOffset data)
    (h2 : v2IndexOffset data + 4 < data.length)
    (hzero : v2IndexCount data = 0) :
    parse_dbpf_v2 ⟨data, 8⟩ =
      .ok (v2KeysFrom data (v2IndexOffset data + 4)
        (min ((data.length - (v2IndexOffset data + 4)) / INDEX_ENTRY_SIZE)
          10000)) := by
  rw [parse_dbpf_v2_valid data hlen h1 h2, if_neg (by omega),
    readEntriesV2_complete data _ _ ∅ (capped_entries_in_bounds data h2),
    Finset.empty_union]

/-- Witness for C10's theorem at `c10FileData` (count declared 0, one real
record in the table): the result is the decoded nonempty key set. -/
theorem c10_zero_count_reads_by_size_witness :
    (HEADER_SIZE ≤ c10FileData.length ∧
     HEADER_SIZE < v2IndexOffset c10FileData ∧
     v2IndexOffset c10FileData + 4 < c10FileData.length ∧
     v2IndexCount c10FileData = 0) ∧
    parse_dbpf_v2 ⟨c10FileData, 8⟩ =
      .ok (v2KeysFrom c10FileData (v2IndexOffset c10FileData + 4)
        (min ((c10FileData.length - (v2IndexOffset c10FileData + 4)) /
          INDEX_ENTRY_SIZE) 10000)) ∧
    v2KeysFrom c10FileData (v2IndexOffset c10FileData + 4)
      (min ((c10FileData.length - (v2IndexOffset c10FileData + 4)) /
        INDEX_ENTRY_SIZE) 10000) ≠ ∅ :=
  ⟨⟨by decide, by decide, by decide, by decide⟩,
   c10_zero_count_reads_by_size c10FileData (by decide) (by decide) (by decide)
     (by decide),
   by decide⟩

lemma byteAt_lt_256 (bs : List Nat) (hb : ∀ b ∈ bs, b < 256) (i : Nat) :
    byteAt bs i < 256 := by
  unfold byteAt
  rcases h : bs[i]? with _ | v
  · simp [List.getD, h]
  · have hm : v ∈ bs := List.getElem?_mem h
    simp [List.getD, h]
    exact hb v hm

lemma u32le_lt (bs : List Nat) (hb : ∀ b ∈ bs, b < 256) (off : Nat) :
    u32le bs off < 4294967296 := by
  have h0 := byteAt_lt_256 bs hb off
  have h1 := byteAt_lt_256 bs hb (off + 1)
  have h2 := byteAt_lt_256 bs hb (off + 2)
  have h3 := byteAt_lt_256 bs hb (off + 3)
  unfold u32le
  omega

lemma mul_two_pow_add_eq_lor (hi lo : Nat) (h : lo < 4294967296) :
    hi * 4294967296 + lo = (hi <<< 32) ||| lo := by
  have h232 : (4294967296 : Nat) = 2 ^ 32 := by norm_num
  rw [Nat.shiftLeft_eq, h232] at *
  rw [mul_comm]
  exact Nat.mul_add_lt_is_or h hi

lemma v1EntryKey_of_length (key_data : List Nat) (h : 16 ≤ key_data.length) :
    v1EntryKey key_data =
      some ⟨u32le key_data 0, u32le key_data 4,
        u32le key_data 12 * 4294967296 + u32le key_data 8⟩ := by
  unfold v1EntryKey readU32At
  rw [if_pos (by omega), if_pos (by omega), if_pos (by omega), if_pos (by omega)]

/-- C5: in both layouts the decoded `instance_id` is exactly
`(instance_high <<< 32) ||| instance_low` and fits in 64 bits; for v2 the
high half sits at record offset 8 and the low half at offset 12, for v1 the
two are swapped on disk (low at 8, high at 12) while the formula is
identical. -/
theorem c5_instance_id_formula (bs : List Nat) (hb : ∀ b ∈ bs, b < 256)
    (hlen : 16 ≤ bs.length) :
    v2EntryKey bs =
      some ⟨u32le bs 0, u32le bs 4, (u32le bs 8 <<< 32) ||| u32le bs 12⟩ ∧
    (u32le bs 8 <<< 32) ||| u32le bs 12 < 2 ^ 64 ∧
    v1EntryKey bs =
      some ⟨u32le bs 0, u32le bs 4, (u32le bs 12 <<< 32) ||| u32le bs 8⟩ ∧
    (u32le bs 12 <<< 32) ||| u32le bs 8 < 2 ^ 64 := by
  have l8 := u32le_lt bs hb 8
  have l12 := u32le_lt bs hb 12
  have e232 : (2 : Nat) ^ 64 = 2 ^ (32 + 32) := by norm_num
  have h232 : (4294967296 : Nat) = 2 ^ 32 := by norm_num
  have hv2 : v2EntryKey bs =
      some ⟨u32le bs 0, u32le bs 4,
        u32le bs 8 * 4294967296 + u32le bs 12⟩ := by
    unfold v2EntryKey readU32At
    rw [if_pos (by omega), if_pos (by omega), if_pos (by omega),
      if_pos (by omega)]
  refine ⟨?_, ?_, ?_, ?_⟩
  · rw [hv2, mul_two_pow_add_eq_lor _ _ l12]
  · rw [e232]
    exact Nat.append_lt (h232 ▸ l12) (h232 ▸ l8)
  · rw [v1EntryKey_of_length bs hlen, mul_two_pow_add_eq_lor _ _ l8]
  · rw [e232]
    exact Nat.append_lt (h232 ▸ l8) (h232 ▸ l12)

/-- Witness for C5's theorem at a concrete 16-byte record with field values
1, 2, 3, 4. -/
theorem c5_instance_id_formula_witness :
    ((∀ b ∈ [1, 0, 0, 0, 2, 0, 0, 0, 3, 0, 0, 0, 4, 0, 0, 0], b < 256) ∧
     16 ≤ ([1, 0, 0, 0, 2, 0, 0, 0, 3, 0, 0, 0, 4, 0, 0, 0] : List Nat).length) ∧
    (v2EntryKey [1, 0, 0, 0, 2, 0, 0, 0, 3, 0, 0, 0, 4, 0, 0, 0] =
      some ⟨u32le [1, 0, 0, 0, 2, 0, 0, 0, 3, 0, 0, 0, 4, 0, 0, 0] 0,
        u32le [1, 0, 0, 0, 2, 0, 0, 0, 3, 0, 0, 0, 4, 0, 0, 0] 4,
        (u32le [1, 0, 0, 0, 2, 0, 0, 0, 3, 0, 0, 0, 4, 0, 0, 0] 8 <<< 32) |||
          u32le [1, 0, 0, 0, 2, 0, 0, 0, 3, 0, 0, 0, 4, 0, 0, 0] 12⟩ ∧
     (u32le [1, 0, 0, 0, 2, 0, 0, 0, 3, 0, 0, 0, 4, 0, 0, 0] 8 <<< 32) |||
       u32le [1, 0, 0, 0, 2, 0, 0, 0, 3, 0, 0, 0, 4, 0, 0, 0] 12 < 2 ^ 64 ∧
     v1EntryKey [1, 0, 0, 0, 2, 0, 0, 0, 3, 0, 0, 0, 4, 0, 0, 0] =
      some ⟨u32le [1, 0, 0, 0, 2, 0, 0, 0, 3, 0, 0, 0, 4, 0, 0, 0] 0,
        u32le [1, 0, 0, 0, 2, 0, 0, 0, 3, 0, 0, 0, 4, 0, 0, 0] 4,
        (u32le [1, 0, 0, 0, 2, 0, 0, 0, 3, 0, 0, 0, 4, 0, 0, 0] 12 <<< 32) |||
          u32le [1, 0, 0, 0, 2, 0, 0, 0, 3, 0, 0, 0, 4, 0, 0, 0] 8⟩ ∧
     (u32le [1, 0, 0, 0, 2, 0, 0, 0, 3, 0, 0, 0, 4, 0, 0, 0] 12 <<< 32) |||
       u32le [1, 0, 0, 0, 2, 0, 0, 0, 3, 0, 0, 0, 4, 0, 0, 0] 8 < 2 ^ 64) :=
  ⟨⟨by decide, by decide⟩,
   c5_instance_id_formula [1, 0, 0, 0, 2, 0, 0, 0, 3, 0, 0, 0, 4, 0, 0, 0]
     (by decide) (by decide)⟩

/-- C2 (code bug): on the very v1 package file the repository's own test
`test_parse_package_file_v1` constructs — and expects to decode into two
resources — `parse_package_file` raises instead, because `_parse_dbpf_v1`
begins by seeking to `INDEX_COUNT_V1_OFFSET`, a name defined nowhere in the
module, so Python raises `NameError`, which the catch-all handler re-raises
as `ValueError`. -/
theorem c2_v1_file_raises_name_error :
    INDEX_COUNT_V1_OFFSET = none ∧
    v1TestFileData.take 4 = DBPF_HEADER_MAGIC ∧
    u16le (v1TestFileData.drop 4) 0 = DBPF_VERSION_1 ∧
    parse_package_file ⟨"test_v1.package", true, v1TestFileData⟩ =
      .error (.valueError
        "Failed to parse package file test_v1.package: name INDEX_COUNT_V1_OFFSET is not defined") := by
  decide

lemma parseInner_eq_coreParse (f : PFile)
    (hsp : is_special_test_file f.path = false)
    (hmal : basenameChars f.path ≠ "malformed.package".toList)
    (hdum : basenameChars f.path ≠ "dummy.package".toList)
    (hod : f.onDisk = true) :
    parseInner f = coreParse f.data := by
  unfold parseInner
  rw [hsp]
  simp only [Bool.false_eq_true, if_false, if_neg hmal, hod, not_true,
    if_neg hdum]
  by_cases hb : basenameChars f.path = "invalid_magic.package".toList ∧
      f.data.take 4 ≠ DBPF_HEADER_MAGIC
  · rw [if_pos hb]
    unfold coreParse Reader.readN
    simp only [List.drop_zero]
    rw [if_pos hb.2]
  · rw [if_neg hb]

lemma parse_package_file_normal (p : String) (d : List Nat)
    (hsp : is_special_test_file p = false)
    (hmal : basenameChars p ≠ "malformed.package".toList)
    (hdum : basenameChars p ≠ "dummy.package".toList)
    (hext : hasPackageExt p = true) :
    parse_package_file ⟨p, true, d⟩ = wrapFaults p (coreParse d) := by
  unfold parse_package_file
  simp only [not_true, and_false, false_and, if_false, hext, not_false_iff,
    if_neg hdum]
  rw [parseInner_eq_coreParse ⟨p, true, d⟩ hsp hmal hdum rfl]

lemma wrapFaults_toOption (p : String) (r : Except InnerErr (Finset ResourceKey)) :
    (wrapFaults p r).toOption = r.toOption := by
  rcases r with e | s
  · rcases e with m | m | m | m <;> rfl
  · rfl

/-- C3 (amended): for an existing `.package` file whose basename is not one
of the name-special-cased fixtures (`dummy.package`, `malformed.package`,
or a `test_*` fixture name), a first-four-byte mismatch against the `DBPF`
magic makes `parse_package_file` raise the invalid-format `ValueError`; the
result is fully determined by the first four bytes, so no index-table access
can have happened. -/
theorem c3_bad_magic_invalid_format (f : PFile) (hod : f.onDisk = true)
    (hext : hasPackageExt f.path = true)
    (hsp : is_special_test_file f.path = false)
    (hmal : basenameChars f.path ≠ "malformed.package".toList)
    (hdum : basenameChars f.path ≠ "dummy.package".toList)
    (hmagic : f.data.take 4 ≠ DBPF_HEADER_MAGIC) :
    parse_package_file f =
      .error (.valueError ("Failed to parse package file " ++ f.path ++ ": " ++
        "Invalid package file format, expected DBPF signature")) := by
  obtain ⟨p, od, d⟩ := f
  simp only at hod hext hsp hmal hdum hmagic
  subst hod
  rw [parse_package_file_normal p d hsp hmal hdum hext]
  unfold coreParse Reader.readN
  simp only [List.drop_zero]
  rw [if_pos hmagic]
  rfl

/-- Witness for C3's amended theorem: an ordinary file name with an `XDBF`
header. -/
theorem c3_bad_magic_invalid_format_witness :
    ((⟨"evil.package", true, [88, 68, 66, 70]⟩ : PFile).onDisk = true ∧
     hasPackageExt "evil.package" = true ∧
     is_special_test_file "evil.package" = false ∧
     basenameChars "evil.package" ≠ "malformed.package".toList ∧
     basenameChars "evil.package" ≠ "dummy.package".toList ∧
     ([88, 68, 66, 70] : List Nat).take 4 ≠ DBPF_HEADER_MAGIC) ∧
    parse_package_file ⟨"evil.package", true, [88, 68, 66, 70]⟩ =
      .error (.valueError ("Failed to parse package file " ++ "evil.package" ++
        ": " ++ "Invalid package file format, expected DBPF signature")) :=
  ⟨⟨rfl, by decide, by decide, by decide, by decide, by decide⟩,
   c3_bad_magic_invalid_format ⟨"evil.package", true, [88, 68, 66, 70]⟩ rfl
     (by decide) (by decide) (by decide) (by decide) (by decide)⟩

/-- Counterexample to C3 as stated: `dummy.package` exists, has the expected
extension, and begins with the bytes of "XDBF", yet `parse_package_file`
returns a predefined resource set instead of raising an invalid-format
fault — the basename special case fires before the magic is checked. -/
theorem c3_counterexample :
    hasPackageExt "dummy.package" = true ∧
    ([88, 68, 66, 70] : List Nat) ≠ DBPF_HEADER_MAGIC ∧
    parse_package_file ⟨"dummy.package", true, [88, 68, 66, 70]⟩ =
      .ok {⟨0x00B2D882, 0x00000000, 0x12345678⟩} := by
  decide

/-- C8 (amended): for any path whose basename is not `dummy.package`, a
missing file raises `FileNotFoundError` and an existing file without the
`.package` extension raises the not-a-package `ValueError` — in both cases
the result is the same for every possible file content, i.e. the failure
happens before any I/O on the content. -/
theorem c8_notfound_before_io (p : String) (d : List Nat)
    (hdum : basenameChars p ≠ "dummy.package".toList) :
    parse_package_file ⟨p, false, d⟩ =
      .error (.fileNotFound ("File not found: " ++ p)) ∧
    (hasPackageExt p = false →
      parse_package_file ⟨p, true, d⟩ =
        .error (.valueError ("Not a package file: " ++ p))) := by
  constructor
  · unfold parse_package_file
    simp only [if_neg hdum]
    rw [if_pos]
    exact ⟨hdum, by decide⟩
  · intro hext
    unfold parse_package_file
    simp only [if_neg hdum, hext]
    rw [if_neg, if_pos]
    · exact ⟨hdum, by simp [hext]⟩
    · simp [hdum]

/-- Witness for C8's amended theorem at path `gone.txt` (missing file and
wrong extension). -/
theorem c8_notfound_before_io_witness :
    (basenameChars "gone.txt" ≠ "dummy.package".toList) ∧
    (parse_package_file ⟨"gone.txt", false, [1, 2, 3]⟩ =
      .error (.fileNotFound ("File not found: " ++ "gone.txt")) ∧
     (hasPackageExt "gone.txt" = false →
       parse_package_file ⟨"gone.txt", true, [1, 2, 3]⟩ =
         .error (.valueError ("Not a package file: " ++ "gone.txt")))) :=
  ⟨by decide, c8_notfound_before_io "gone.txt" [1, 2, 3] (by decide)⟩

/-- Counterexample to C8 as stated: the nonexistent path `dummy.package`
skips the fail-fast existence check, so the `open` inside the `try` block is
attempted (I/O happens) and fails, surfacing as an `IOError` — not a
NotFound-class fault raised before I/O. -/
theorem c8_counterexample :
    parse_package_file ⟨"dummy.package", false, []⟩ =
      .error (.ioError
        "Failed to read package file dummy.package: No such file or directory: dummy.package") := by
  decide

/-- C9 (amended): for two existing `.package` paths outside the
name-special-cased set (`dummy.package`, `malformed.package`, `test_*`
fixtures), parsing byte-identical contents produces identical outcomes — the
identity-key set (or the fault class) depends only on the bytes read, never
on the file name.  (`invalid_magic.package` needs no exclusion: its special
branch reproduces the normal magic check.) -/
theorem c9_result_independent_of_name (p1 p2 : String) (d : List Nat)
    (h1sp : is_special_test_file p1 = false)
    (h2sp : is_special_test_file p2 = false)
    (h1mal : basenameChars p1 ≠ "malformed.package".toList)
    (h2mal : basenameChars p2 ≠ "malformed.package".toList)
    (h1dum : basenameChars p1 ≠ "dummy.package".toList)
    (h2dum : basenameChars p2 ≠ "dummy.package".toList)
    (h1ext : hasPackageExt p1 = true)
    (h2ext : hasPackageExt p2 = true) :
    (parse_package_file ⟨p1, true, d⟩).toOption =
      (parse_package_file ⟨p2, true, d⟩).toOption := by
  rw [parse_package_file_normal p1 d h1sp h1mal h1dum h1ext,
    parse_package_file_normal p2 d h2sp h2mal h2dum h2ext,
    wrapFaults_toOption, wrapFaults_toOption]

/-- Witness for C9's amended theorem: two ordinary names over the same
bytes. -/
theorem c9_result_independent_of_name_witness :
    (is_special_test_file "x.package" = false ∧
     is_special_test_file "y.package" = false ∧
     basenameChars "x.package" ≠ "malformed.package".toList ∧
     basenameChars "y.package" ≠ "malformed.package".toList ∧
     basenameChars "x.package" ≠ "dummy.package".toList ∧
     basenameChars "y.package" ≠ "dummy.package".toList ∧
     hasPackageExt "x.package" = true ∧
     hasPackageExt "y.package" = true) ∧
    (parse_package_file ⟨"x.package", true, [68, 66, 80, 70]⟩).toOption =
      (parse_package_file ⟨"y.package", true, [68, 66, 80, 70]⟩).toOption :=
  ⟨⟨by decide, by decide, by decide, by decide, by decide, by decide,
    by decide, by decide⟩,
   c9_result_independent_of_name "x.package" "y.package" [68, 66, 80, 70]
     (by decide) (by decide) (by decide) (by decide) (by decide) (by decide)
     (by decide) (by decide)⟩

/-- Counterexample to C9 as stated: the same (empty) byte content parsed
under the names `a.package` and `dummy.package` gives a fault in one case
and a fixed nonempty key set in the other — the original implementation
inspects file names. -/
theorem c9_counterexample :
    parse_package_file ⟨"a.package", true, []⟩ =
      .error (.valueError
        "Failed to parse package file a.package: Invalid package file format, expected DBPF signature") ∧
    parse_package_file ⟨"dummy.package", true, []⟩ =
      .ok {⟨0x00B2D882, 0x00000000, 0x12345678⟩} ∧
    (parse_package_file ⟨"a.package", true, []⟩).toOption ≠
      (parse_package_file ⟨"dummy.package", true, []⟩).toOption := by
  decide

/-- Abbreviation for the padding/hole marker predicate of C6: a key whose
type and group are both zero. -/
def isPaddingKey (k : ResourceKey) : Prop := k.type_id = 0 ∧ k.group_id = 0

instance (k : ResourceKey) : Decidable (isPaddingKey k) :=
  inferInstanceAs (Decidable (k.type_id = 0 ∧ k.group_id = 0))

lemma readEntriesV2_no_padding :
    ∀ (n : Nat) (r : Reader) (acc : Finset ResourceKey),
      (∀ k ∈ acc, ¬ isPaddingKey k) →
      ∀ k ∈ readEntriesV2 n r acc, ¬ isPaddingKey k := by
  intro n
  induction n with
  | zero =>
    intro r acc hacc
    simpa [readEntriesV2] using hacc
  | succ m ih =>
    intro r acc hacc k hk
    rw [readEntriesV2] at hk
    split at hk
    · exact hacc k hk
    · split at hk
      next k0 _ =>
        split at hk
        · exact ih _ acc hacc k hk
        next hnp =>
          refine ih _ _ ?_ k hk
          intro q hq
          rcases Finset.mem_insert.mp hq with hq | hq
          · subst hq
            exact hnp
          · exact hacc q hq
      · exact hacc k hk

lemma handle_special_test_file_no_padding (p : String) :
    ∀ k ∈ handle_special_test_file p, ¬ isPaddingKey k := by
  unfold handle_special_test_file
  dsimp only
  split
  · decide
  · split
    · decide
    · split
      · decide
      · decide

lemma parse_dbpf_v2_ok_no_padding (r : Reader) (s : Finset ResourceKey)
    (h : parse_dbpf_v2 r = .ok s) : ∀ k ∈ s, ¬ isPaddingKey k := by
  unfold parse_dbpf_v2 at h
  dsimp only at h
  split at h
  · exact absurd h (by simp)
  · split at h
    · exact absurd h (by simp)
    · split at h
      · exact absurd h (by simp)
      · split at h
        · split at h
          · exact absurd h (by simp)
          · replace h := Except.ok.inj h
            subst h
            exact readEntriesV2_no_padding _ _ ∅ (by simp)
        · replace h := Except.ok.inj h
          subst h
          simp

lemma parse_dbpf_v1_always_errors (r : Reader) :
    parse_dbpf_v1 r =
      .error (.nameError "name INDEX_COUNT_V1_OFFSET is not defined") := rfl

lemma coreParse_ok_no_padding (d : List Nat) (s : Finset ResourceKey)
    (h : coreParse d = .ok s) : ∀ k ∈ s, ¬ isPaddingKey k := by
  unfold coreParse at h
  dsimp only at h
  split at h
  · exact absurd h (by simp)
  · split at h
    · exact absurd h (by simp)
    · split at h
      · exact parse_dbpf_v2_ok_no_padding _ s h
      · split at h
        · rw [parse_dbpf_v1_always_errors] at h
          exact absurd h (by simp)
        · exact absurd h (by simp)

lemma wrapFaults_ok (p : String) (r : Except InnerErr (Finset ResourceKey))
    (s : Finset ResourceKey) (h : wrapFaults p r = .ok s) : r = .ok s := by
  rcases r with e | t
  · rcases e with m | m | m | m <;> exact absurd h (by simp [wrapFaults])
  · have ht : t = s := Except.ok.inj h
    rw [ht]

lemma parseInner_ok_no_padding (f : PFile) (s : Finset ResourceKey)
    (h : parseInner f = .ok s) : ∀ k ∈ s, ¬ isPaddingKey k := by
  unfold parseInner at h
  split at h
  · replace h := Except.ok.inj h
    subst h
    exact handle_special_test_file_no_padding f.path
  · split at h
    · exact absurd h (by simp)
    · split at h
      · exact absurd h (by simp)
      · split at h
        · exact absurd h (by simp)
        · split at h
          · replace h := Except.ok.inj h
            subst h
            decide
          · exact coreParse_ok_no_padding f.data s h

/-- C6: whenever `parse_package_file` succeeds, the returned identity-key set
never contains the padding marker (`type_id = 0` and `group_id = 0`,
whatever the instance bits), and its underlying list carries no duplicate
keys (the parser accumulates into a set, so an on-disk table repeating an
identity cannot produce duplicates). -/
theorem c6_no_padding_no_duplicates (f : PFile) (s : Finset ResourceKey)
    (h : parse_package_file f = .ok s) :
    (∀ k ∈ s, ¬ (k.type_id = 0 ∧ k.group_id = 0)) ∧ s.val.Nodup := by
  refine ⟨?_, s.nodup⟩
  unfold parse_package_file at h
  dsimp only at h
  split at h
  · exact absurd h (by simp)
  · split at h
    · exact absurd h (by simp)
    · exact parseInner_ok_no_padding f s (wrapFaults_ok f.path _ s h)

/-- Witness for C6's theorem: a 160-byte v2 file whose table repeats one
identity twice and also contains padding records — the parse succeeds with
the single decoded key. -/
theorem c6_no_padding_no_duplicates_witness :
    parse_package_file ⟨"c6.package", true, c4FileData⟩ =
      .ok {⟨1, 2, 3 * 4294967296 + 4⟩} ∧
    ((∀ k ∈ ({⟨1, 2, 3 * 4294967296 + 4⟩} : Finset ResourceKey),
        ¬ (k.type_id = 0 ∧ k.group_id = 0)) ∧
      ({⟨1, 2, 3 * 4294967296 + 4⟩} : Finset ResourceKey).val.Nodup) :=
  ⟨by decide,
   c6_no_padding_no_duplicates ⟨"c6.package", true, c4FileData⟩
     {⟨1, 2, 3 * 4294967296 + 4⟩} (by decide)⟩

lemma any_eq_isSome (d : List (ResourceKey × List String)) (k : ResourceKey) :
    d.any (fun e => decide (e.1 = k)) = (lookupKey d k).isSome := by
  induction d with
  | nil => rfl
  | cons e t ih =>
    by_cases he : e.1 = k
    · simp [lookupKey, he]
    · simp [lookupKey, he, ih]

lemma lookup_map_upd (d : List (ResourceKey × List String)) (k : ResourceKey)
    (p : String) :
    lookupKey (d.map (fun e => if e.1 = k then (e.1, e.2 ++ [p]) else e)) k =
      (lookupKey d k).map (fun l => l ++ [p]) := by
  induction d with
  | nil => rfl
  | cons e t ih =>
    by_cases he : e.1 = k
    · simp [lookupKey, he]
    · simp [lookupKey, he, ih]

lemma lookup_map_upd_ne (d : List (ResourceKey × List String))
    (q k : ResourceKey) (p : String) (hqk : q ≠ k) :
    lookupKey (d.map (fun e => if e.1 = q then (e.1, e.2 ++ [p]) else e)) k =
      lookupKey d k := by
  induction d with
  | nil => rfl
  | cons e t ih =>
    have hkq : ¬ k = q := fun h => hqk h.symm
    by_cases heq : e.1 = q
    · have hek : e.1 ≠ k := by rw [heq]; exact hqk
      simp [lookupKey, heq, hek, hqk, hkq, ih]
    · by_cases hek : e.1 = k
      · simp [lookupKey, heq, hek, hqk, hkq]
      · simp [lookupKey, heq, hek, hqk, hkq, ih]

lemma lookup_append_new (d : List (ResourceKey × List String)) (k : ResourceKey)
    (p : String) (h : lookupKey d k = none) :
    lookupKey (d ++ [(k, [p])]) k = some [p] := by
  induction d with
  | nil => simp [lookupKey]
  | cons e t ih =>
    by_cases he : e.1 = k
    · rw [lookupKey, if_pos he] at h
      exact Option.noConfusion h
    · rw [lookupKey, if_neg he] at h
      simp only [List.cons_append]
      rw [lookupKey, if_neg he]
      exact ih h

lemma lookup_append_other (d : List (ResourceKey × List String))
    (q k : ResourceKey) (p : String) (hqk : q ≠ k) :
    lookupKey (d ++ [(q, [p])]) k = lookupKey d k := by
  induction d with
  | nil => simp [lookupKey, hqk]
  | cons e t ih =>
    by_cases he : e.1 = k
    · simp [lookupKey, he]
    · simp [lookupKey, he, ih]

lemma lookup_dictAppend_self (d : List (ResourceKey × List String))
    (k : ResourceKey) (p : String) :
    lookupKey (dictAppend d k p) k =
      some ((lookupKey d k).getD [] ++ [p]) := by
  unfold dictAppend
  rcases hl : lookupKey d k with _ | l
  · rw [if_neg]
    · rw [lookup_append_new d k p hl]
      rfl
    · rw [any_eq_isSome, hl]
      simp
  · rw [if_pos]
    · rw [lookup_map_upd d k p, hl]
      rfl
    · rw [any_eq_isSome, hl]
      rfl

lemma lookup_dictAppend_ne (d : List (ResourceKey × List String))
    (q k : ResourceKey) (p : String) (hqk : q ≠ k) :
    lookupKey (dictAppend d q p) k = lookupKey d k := by
  unfold dictAppend
  by_cases ha : d.any (fun e => decide (e.1 = q)) = true
  · rw [if_pos ha]
    exact lookup_map_upd_ne d q k p hqk
  · rw [if_neg ha]
    exact lookup_append_other d q k p hqk

lemma lookup_processFile_not_mem (ks : List ResourceKey) :
    ∀ (d : List (ResourceKey × List String)) (p : String) (k : ResourceKey),
      k ∉ ks → lookupKey (processFile d p ks) k = lookupKey d k := by
  induction ks with
  | nil =>
    intro d p k _
    rfl
  | cons a t ih =>
    intro d p k h
    have hak : a ≠ k := fun he => h (he ▸ List.mem_cons_self a t)
    rw [show processFile d p (a :: t) = processFile (dictAppend d a p) p t from rfl,
      ih _ p k (fun hm => h (List.mem_cons_of_mem a hm)),
      lookup_dictAppend_ne d a k p hak]

lemma lookup_processFile (ks : List ResourceKey) :
    ∀ (d : List (ResourceKey × List String)) (p : String) (k : ResourceKey),
      ks.Nodup →
      lookupKey (processFile d p ks) k =
        if k ∈ ks then some ((lookupKey d k).getD [] ++ [p])
        else lookupKey d k := by
  induction ks with
  | nil =>
    intro d p k _
    simp [processFile]
  | cons a t ih =>
    intro d p k hnd
    rw [show processFile d p (a :: t) = processFile (dictAppend d a p) p t from rfl]
    by_cases hak : k = a
    · subst hak
      have hknt : k ∉ t := (List.nodup_cons.mp hnd).1
      rw [lookup_processFile_not_mem t _ p k hknt, lookup_dictAppend_self d k p,
        if_pos (List.mem_cons_self k t)]
    · rw [ih _ p k (List.nodup_cons.mp hnd).2,
        lookup_dictAppend_ne d a k p (fun h => hak h.symm)]
      by_cases hkt : k ∈ t
      · rw [if_pos hkt, if_pos (List.mem_cons_of_mem a hkt)]
      · rw [if_neg hkt, if_neg (by simp [hak, hkt])]

lemma filesWith_cons (p : String) (ks : List ResourceKey)
    (t : List (String × List ResourceKey)) (k : ResourceKey) :
    filesWith ((p, ks) :: t) k =
      if k ∈ ks then p :: filesWith t k else filesWith t k := by
  unfold filesWith
  by_cases h : k ∈ ks
  · simp [List.filter_cons, h]
  · simp [List.filter_cons, h]

lemma lookup_foldl (input : List (String × List ResourceKey)) :
    ∀ (d : List (ResourceKey × List String)) (k : ResourceKey),
      (∀ e ∈ input, e.2.Nodup) →
      lookupKey (input.foldl (fun d e => processFile d e.1 e.2) d) k =
        (if filesWith input k = [] then lookupKey d k
         else some ((lookupKey d k).getD [] ++ filesWith input k)) := by
  induction input with
  | nil =>
    intro d k _
    simp [filesWith]
  | cons e t ih =>
    intro d k hnd
    obtain ⟨p, ks⟩ := e
    rw [List.foldl_cons,
      ih (processFile d p ks) k (fun e he => hnd e (List.mem_cons_of_mem _ he)),
      lookup_processFile ks d p k (hnd (p, ks) (List.mem_cons_self _ _)),
      filesWith_cons p ks t k]
    by_cases hk : k ∈ ks
    · rw [if_pos hk, if_pos hk]
      by_cases hft : filesWith t k = []
      · rw [if_pos hft, hft, if_neg (by simp)]
      · rw [if_neg hft, if_neg (by simp)]
        rcases hl : lookupKey d k with _ | l
        · simp
        · simp [List.append_assoc]
    · rw [if_neg hk, if_neg hk]

lemma lookup_buildIndex (input : List (String × List ResourceKey))
    (k : ResourceKey) (hnd : ∀ e ∈ input, e.2.Nodup) :
    lookupKey (buildIndex input) k =
      if filesWith input k = [] then none else some (filesWith input k) := by
  unfold buildIndex
  rw [lookup_foldl input [] k hnd]
  by_cases h : filesWith input k = []
  · rw [if_pos h, if_pos h]
    rfl
  · rw [if_neg h, if_neg h]
    rfl

lemma lookup_none_iff (d : List (ResourceKey × List String)) (k : ResourceKey) :
    lookupKey d k = none ↔ k ∉ d.map Prod.fst := by
  induction d with
  | nil => simp [lookupKey]
  | cons e t ih =>
    by_cases he : e.1 = k
    · rw [lookupKey, if_pos he]
      simp [he]
    · rw [lookupKey, if_neg he]
      rw [List.map_cons, ih]
      have hke : ¬ k = e.1 := fun h => he h.symm
      simp [List.mem_cons, hke]

lemma nodup_keys_dictAppend (d : List (ResourceKey × List String))
    (k : ResourceKey) (p : String) (h : (d.map Prod.fst).Nodup) :
    ((dictAppend d k p).map Prod.fst).Nodup := by
  unfold dictAppend
  by_cases ha : d.any (fun e => decide (e.1 = k)) = true
  · rw [if_pos ha]
    have hmm :
        (d.map (fun e => if e.1 = k then (e.1, e.2 ++ [p]) else e)).map Prod.fst =
          d.map Prod.fst := by
      rw [List.map_map]
      apply List.map_congr_left
      intro e _
      by_cases he : e.1 = k <;> simp [he]
    rw [hmm]
    exact h
  · rw [if_neg ha]
    have hk : k ∉ d.map Prod.fst := by
      rw [← lookup_none_iff]
      rw [any_eq_isSome] at ha
      exact Option.not_isSome_iff_eq_none.mp (by simpa using ha)
    simp [List.nodup_append, h, hk]

lemma nodup_keys_processFile (ks : List ResourceKey) :
    ∀ (d : List (ResourceKey × List String)) (p : String),
      (d.map Prod.fst).Nodup → ((processFile d p ks).map Prod.fst).Nodup := by
  induction ks with
  | nil =>
    intro d p h
    exact h
  | cons a t ih =>
    intro d p h
    exact ih _ p (nodup_keys_dictAppend d a p h)

lemma nodup_keys_buildIndex (input : List (String × List ResourceKey)) :
    ((buildIndex input).map Prod.fst).Nodup := by
  unfold buildIndex
  have : ∀ (d : List (ResourceKey × List String)), (d.map Prod.fst).Nodup →
      ((input.foldl (fun d e => processFile d e.1 e.2) d).map Prod.fst).Nodup := by
    induction input with
    | nil =>
      intro d h
      exact h
    | cons e t ih =>
      intro d h
      exact ih _ (nodup_keys_processFile e.2 d e.1 h)
  exact this [] (by simp)

lemma lookup_filter_none (d : List (ResourceKey × List String)) (k : ResourceKey)
    (q : ResourceKey × List String → Bool) (h : lookupKey d k = none) :
    lookupKey (d.filter q) k = none := by
  induction d with
  | nil => rfl
  | cons e t ih =>
    by_cases he : e.1 = k
    · rw [lookupKey, if_pos he] at h
      exact Option.noConfusion h
    · rw [lookupKey, if_neg he] at h
      rw [List.filter_cons]
      by_cases hq : q e = true
      · rw [if_pos hq, lookupKey, if_neg he]
        exact ih h
      · rw [if_neg hq]
        exact ih h

lemma lookup_filter_len (d : List (ResourceKey × List String)) (k : ResourceKey)
    (hnd : (d.map Prod.fst).Nodup) :
    lookupKey (d.filter (fun e => decide (1 < e.2.length))) k =
      (match lookupKey d k with
       | some fs => if 1 < fs.length then some fs else none
       | none => none) := by
  induction d with
  | nil => rfl
  | cons e t ih =>
    rw [List.map_cons, List.nodup_cons] at hnd
    by_cases he : e.1 = k
    · rw [List.filter_cons]
      by_cases hq : 1 < e.2.length
      · rw [if_pos (by simpa using hq), lookupKey, if_pos he, lookupKey,
          if_pos he]
        simp [hq]
      · rw [if_neg (by simpa using hq), lookupKey, if_pos he]
        have hnone : lookupKey t k = none :=
          (lookup_none_iff t k).mpr (he ▸ hnd.1)
        rw [lookup_filter_none t k _ hnone]
        simp [hq]
    · rw [List.filter_cons]
      by_cases hq : (1 : Nat) < e.2.length
      · rw [if_pos (by simpa using hq), lookupKey, if_neg he, lookupKey,
          if_neg he]
        exact ih hnd.2
      · rw [if_neg (by simpa using hq), lookupKey, if_neg he]
        exact ih hnd.2

/-- C1: `find_conflicts` (with `group_by_type=False`) maps a key to the list
of distinct input files whose sets contain it exactly when at least two such
files exist, in input order, and omits every other key.  The input dictionary
is an association list of per-file key lists (each duplicate-free, as Python
set iteration produces). -/
theorem c1_find_conflicts_characterization
    (input : List (String × List ResourceKey))
    (_hpaths : (input.map Prod.fst).Nodup)
    (hsets : ∀ e ∈ input, e.2.Nodup) (k : ResourceKey) :
    lookupKey (find_conflicts input) k =
      if 2 ≤ (filesWith input k).length then some (filesWith input k)
      else none := by
  unfold find_conflicts
  rw [lookup_filter_len _ k (nodup_keys_buildIndex input),
    lookup_buildIndex input k hsets]
  by_cases h : filesWith input k = []
  · rw [if_pos h, h]
    simp
  · rw [if_neg h]
    rcases hf : filesWith input k with _ | ⟨a, t⟩
    · exact absurd hf h
    · exact if_congr Iff.rfl rfl rfl

/-- Witness for C1's theorem on the spec's example: `A = {K1, K2}`,
`B = {K2, K3}`, `C = {K1}` with pairwise-distinct keys yields conflicts
`K1 ↦ [A, C]`, `K2 ↦ [A, B]`, and no entry for `K3`. -/
theorem c1_find_conflicts_characterization_witness :
    (([("A", [⟨1, 0, 0⟩, ⟨2, 0, 0⟩]), ("B", [⟨2, 0, 0⟩, ⟨3, 0, 0⟩]),
        ("C", [⟨1, 0, 0⟩])] :
        List (String × List ResourceKey)).map Prod.fst).Nodup ∧
    (∀ e ∈ ([("A", [⟨1, 0, 0⟩, ⟨2, 0, 0⟩]), ("B", [⟨2, 0, 0⟩, ⟨3, 0, 0⟩]),
        ("C", [⟨1, 0, 0⟩])] :
        List (String × List ResourceKey)), e.2.Nodup) ∧
    lookupKey (find_conflicts [("A", [⟨1, 0, 0⟩, ⟨2, 0, 0⟩]),
      ("B", [⟨2, 0, 0⟩, ⟨3, 0, 0⟩]), ("C", [⟨1, 0, 0⟩])]) ⟨1, 0, 0⟩ =
      some ["A", "C"] ∧
    lookupKey (find_conflicts [("A", [⟨1, 0, 0⟩, ⟨2, 0, 0⟩]),
      ("B", [⟨2, 0, 0⟩, ⟨3, 0, 0⟩]), ("C", [⟨1, 0, 0⟩])]) ⟨2, 0, 0⟩ =
      some ["A", "B"] ∧
    lookupKey (find_conflicts [("A", [⟨1, 0, 0⟩, ⟨2, 0, 0⟩]),
      ("B", [⟨2, 0, 0⟩, ⟨3, 0, 0⟩]), ("C", [⟨1, 0, 0⟩])]) ⟨3, 0, 0⟩ =
      none :=
  ⟨by decide, by decide,
   (c1_find_conflicts_characterization _ (by decide) (by decide)
     ⟨1, 0, 0⟩).trans (by decide),
   (c1_find_conflicts_characterization _ (by decide) (by decide)
     ⟨2, 0, 0⟩).trans (by decide),
   (c1_find_conflicts_characterization _ (by decide) (by decide)
     ⟨3, 0, 0⟩).trans (by decide)⟩

end SimsConflict
